import Mathlib

/-!
Verification of the ig2rss adaptive priority polling scheduler and resilient
operation executor.

This file gives a shallow embedding of the scheduling, refinement, cold-start
and retry logic of the repository (`src/account_polling_manager.py`,
`src/story_polling_manager.py`, `src/api.py`, `src/instagram_client.py`,
`src/storage.py`) and proves or refutes the specification claims about them.

Modelling conventions:
* Python `datetime` values are modelled as `Int` timestamps in seconds.
  `timedelta.days` is floor division of the difference by 86400 (Python's
  `//`), which on `Int` is `Int.fdiv`.
* Priority tiers are the `String`s stored in the database
  (`"high"`, `"normal"`, `"low"`, `"dormant"`).
* Python's stable `list.sort(key=...)` is modelled by `List.mergeSort`
  with the boolean `≤` on the sort key (Lean's `mergeSort` is stable).
* Exceptions become explicit outcome values; a wrapped upstream call is a
  function from the call index to its outcome.
-/

namespace Ig2Rss

/-- Python `(now - past).days` for two datetimes held as second timestamps:
floor division of the signed difference by 86400. -/
def daysBetween (now past : Int) : Int :=
  (now - past).fdiv 86400

/-! ## Post polling manager (`src/account_polling_manager.py`) -/

/-- Constructor arguments of `AccountPollingManager` that the claims need. -/
structure PollConfig where
  priorityHighDays : Int := 7
  priorityNormalDays : Int := 30
  priorityLowDays : Int := 180
  pollHighEveryN : Nat := 1
  pollNormalEveryN : Nat := 1
  pollLowEveryN : Nat := 3
  pollDormantEveryN : Nat := 12
  priorityOverrides : List String := []
deriving Repr, DecidableEq

/-- One row of the `account_activity` table, as the manager reads it. -/
structure AccountActivity where
  userId : String
  username : String
  mediaCount : Nat
  lastPostId : Option String
  lastPostDate : Option Int
  lastChecked : Int
  pollPriority : String
  consecutiveNoNewPosts : Nat
  createdAt : Int
deriving Repr, DecidableEq

/-- `AccountPollingManager._calculate_initial_priority` (cold start):
no date → dormant; `days ≤ normal_days` → normal; `days ≤ low_days` → low;
otherwise dormant. -/
def calculateInitialPriority (cfg : PollConfig) (now : Int)
    (lastPostDate : Option Int) : String :=
  match lastPostDate with
  | none => "dormant"
  | some d =>
    let daysSincePost := daysBetween now d
    if daysSincePost ≤ cfg.priorityNormalDays then "normal"
    else if daysSincePost ≤ cfg.priorityLowDays then "low"
    else "dormant"

/-- C2: for every account probed at cold start, the initial tier is a pure,
total function of its most recent known post date: no date → dormant;
`days_since ≤ normal_days` → normal; `normal_days < days_since ≤ low_days`
→ low; `days_since > low_days` → dormant; and `high` is never assigned by
this computation. -/
theorem initial_priority_cases (cfg : PollConfig)
    (hnl : cfg.priorityNormalDays ≤ cfg.priorityLowDays) (now d : Int) :
    calculateInitialPriority cfg now none = "dormant"
    ∧ (daysBetween now d ≤ cfg.priorityNormalDays →
        calculateInitialPriority cfg now (some d) = "normal")
    ∧ (cfg.priorityNormalDays < daysBetween now d →
        daysBetween now d ≤ cfg.priorityLowDays →
        calculateInitialPriority cfg now (some d) = "low")
    ∧ (cfg.priorityLowDays < daysBetween now d →
        calculateInitialPriority cfg now (some d) = "dormant")
    ∧ (∀ lastPostDate : Option Int,
        calculateInitialPriority cfg now lastPostDate ≠ "high") := by
  refine ⟨rfl, ?_, ?_, ?_, ?_⟩
  · intro h
    simp [calculateInitialPriority, h]
  · intro h1 h2
    simp [calculateInitialPriority, not_le.mpr h1, h2]
  · intro h
    have h1 : ¬ daysBetween now d ≤ cfg.priorityNormalDays :=
      not_le.mpr (lt_of_le_of_lt hnl h)
    simp [calculateInitialPriority, h1, not_le.mpr h]
  · intro lastPostDate
    match lastPostDate with
    | none => simp [calculateInitialPriority]
    | some e =>
      simp only [calculateInitialPriority]
      split
      · simp
      · split
        · simp
        · simp

/-- Witness for `initial_priority_cases` at the default thresholds: a post
5 days old is classified `normal`, one 60 days old `low`, one 200 days old
`dormant`, a missing date `dormant`. -/
theorem initial_priority_cases_witness :
    calculateInitialPriority {} 0 none = "dormant"
    ∧ calculateInitialPriority {} (5 * 86400) (some 0) = "normal"
    ∧ calculateInitialPriority {} (60 * 86400) (some 0) = "low"
    ∧ calculateInitialPriority {} (200 * 86400) (some 0) = "dormant" := by
  have h := initial_priority_cases {} (by decide) (5 * 86400) 0
  have h60 := initial_priority_cases {} (by decide) (60 * 86400) 0
  have h200 := initial_priority_cases {} (by decide) (200 * 86400) 0
  exact ⟨h.1, h.2.1 (by decide), h60.2.2.1 (by decide) (by decide),
    h200.2.2.2.1 (by decide)⟩

/-- The metadata dict produced by a post check, as read by
`update_account_priority` / `_refine_priority`
(`media_count`, `latest_post_id`, `latest_post_date`; each may be absent). -/
structure PostMetadata where
  mediaCount : Option Nat
  latestPostId : Option String
  latestPostDate : Option Int
deriving Repr, DecidableEq

/-- `AccountPollingManager._refine_priority` (steady state): if new posts were
found and the metadata has a date within the high/normal/low thresholds, that
tier; otherwise fall back to the recorded `last_post_date` under the same
thresholds; otherwise dormant.  Note the first block falls through (instead
of returning `"dormant"`) when the new post's date is older than
`priority_low_days`. -/
def refinePriority (cfg : PollConfig) (now : Int) (activity : AccountActivity)
    (hasNewPosts : Bool) (meta : PostMetadata) : String :=
  let fromNewPost : Option String :=
    if hasNewPosts then
      match meta.latestPostDate with
      | some d =>
        let daysSincePost := daysBetween now d
        if daysSincePost ≤ cfg.priorityHighDays then some "high"
        else if daysSincePost ≤ cfg.priorityNormalDays then some "normal"
        else if daysSincePost ≤ cfg.priorityLowDays then some "low"
        else none
      | none => none
    else none
  match fromNewPost with
  | some p => p
  | none =>
    match activity.lastPostDate with
    | some d =>
      let daysSincePost := daysBetween now d
      if daysSincePost ≤ cfg.priorityHighDays then "high"
      else if daysSincePost ≤ cfg.priorityNormalDays then "normal"
      else if daysSincePost ≤ cfg.priorityLowDays then "low"
      else "dormant"
    | none => "dormant"

/-- Modelled from the claim's words (C3): the tier given by the
high/normal/low/dormant day thresholds applied to a days-since value, with
`high` reachable. -/
def tierOfDays (cfg : PollConfig) (days : Int) : String :=
  if days ≤ cfg.priorityHighDays then "high"
  else if days ≤ cfg.priorityNormalDays then "normal"
  else if days ≤ cfg.priorityLowDays then "low"
  else "dormant"

/-- `AccountPollingManager.update_account_priority`, as the new row contents
after `storage.update_account_activity` applies the `updates` dict.
`observation_hours = (now - created_at).total_seconds() / 3600 ≥ 24` is the
exact condition `now - created_at ≥ 86400` on second timestamps. -/
def updateAccountPriority (cfg : PollConfig) (now : Int)
    (activity : AccountActivity) (hasNewPosts : Bool) (meta : PostMetadata) :
    AccountActivity :=
  let base :=
    if hasNewPosts then
      { activity with
        lastChecked := now
        mediaCount := meta.mediaCount.getD activity.mediaCount
        lastPostId := meta.latestPostId
        lastPostDate := meta.latestPostDate
        consecutiveNoNewPosts := 0 }
    else
      { activity with
        lastChecked := now
        mediaCount := meta.mediaCount.getD activity.mediaCount
        consecutiveNoNewPosts := activity.consecutiveNoNewPosts + 1 }
  if 86400 ≤ now - activity.createdAt then
    let refined := refinePriority cfg now activity hasNewPosts meta
    let newPriority :=
      if activity.username ∈ cfg.priorityOverrides then "high" else refined
    if newPriority ≠ activity.pollPriority then
      { base with pollPriority := newPriority }
    else base
  else base

/-- Cadence branch of `get_accounts_to_poll_this_cycle`: the `should_poll`
if/elif chain over the four known tiers (an unknown tier never polls). -/
def postShouldPollByCadence (cfg : PollConfig) (cycle : Nat)
    (priority : String) : Bool :=
  if priority = "high" then cycle % cfg.pollHighEveryN == 0
  else if priority = "normal" then cycle % cfg.pollNormalEveryN == 0
  else if priority = "low" then cycle % cfg.pollLowEveryN == 0
  else if priority = "dormant" then cycle % cfg.pollDormantEveryN == 0
  else false

/-- Selection test of the post scheduler's per-activity loop: overrides are
always appended, everything else goes through the cadence chain. -/
def postSelected (cfg : PollConfig) (cycle : Nat) (a : AccountActivity) : Bool :=
  if a.username ∈ cfg.priorityOverrides then true
  else postShouldPollByCadence cfg cycle a.pollPriority

/-- The cadence that the `should_poll` chain consults for each known tier
(`none` for a tier string outside the four known ones). -/
def postCadenceOf (cfg : PollConfig) (priority : String) : Option Nat :=
  if priority = "high" then some cfg.pollHighEveryN
  else if priority = "normal" then some cfg.pollNormalEveryN
  else if priority = "low" then some cfg.pollLowEveryN
  else if priority = "dormant" then some cfg.pollDormantEveryN
  else none

/-- `priority_order = {'high': 0, 'normal': 1, 'low': 2, 'dormant': 3}` with
`.get(..., 4)`. -/
def priorityOrder (priority : String) : Nat :=
  if priority = "high" then 0
  else if priority = "normal" then 1
  else if priority = "low" then 2
  else if priority = "dormant" then 3
  else 4

/-- Python tuple comparison on the post sort key
`(priority_order[...], last_checked)`: lexicographic. -/
def postKeyLe (a b : AccountActivity) : Bool :=
  priorityOrder a.pollPriority < priorityOrder b.pollPriority
  || (priorityOrder a.pollPriority == priorityOrder b.pollPriority
      && a.lastChecked ≤ b.lastChecked)

/-- `AccountPollingManager.get_accounts_to_poll_this_cycle`: filter by
override/cadence; then, only when `max_accounts` is given and positive
(Python truthiness plus `> 0`), stably sort by `(tier_rank, last_checked)`
and truncate. -/
def getAccountsToPollPosts (cfg : PollConfig) (cycle : Nat)
    (allActivities : List AccountActivity) (maxAccounts : Option Nat) :
    List AccountActivity :=
  let accountsToPoll := allActivities.filter (postSelected cfg cycle)
  match maxAccounts with
  | some m =>
    if 0 < m then (accountsToPoll.mergeSort postKeyLe).take m
    else accountsToPoll
  | none => accountsToPoll

/-! ## Story polling manager (`src/story_polling_manager.py`) -/

/-- Constructor arguments of `StoryPollingManager` that the claims need.
Note: unlike `AccountPollingManager` it has no override list. -/
structure StoryConfig where
  storyActiveDays : Int := 3
  storyInactiveDays : Int := 14
  storyDormantDays : Int := 90
  pollHighEveryN : Nat := 1
  pollNormalEveryN : Nat := 1
  pollLowEveryN : Nat := 3
  pollDormantEveryN : Nat := 12
  muteRefreshHours : Nat := 24
deriving Repr, DecidableEq

/-- One row of the `account_story_activity` table.  `last_checked` is nullable
in the scheduler's sort (`x['last_checked'] or datetime.min`). -/
structure StoryActivity where
  userId : String
  username : String
  isMutingStories : Bool
  lastStoryId : Option String
  lastStoryDate : Option Int
  lastChecked : Option Int
  storyPollPriority : String
  consecutiveNoNewStories : Nat
  storiesFetchedCount : Nat
deriving Repr, DecidableEq

/-- The story metadata dict (`latest_story_id`, `latest_story_date`,
`story_count`). -/
structure StoryMetadata where
  latestStoryId : Option String
  latestStoryDate : Option Int
  storyCount : Nat
deriving Repr, DecidableEq

/-- `StoryPollingManager._refine_priority`: recency blended with the
consecutive-miss counter. -/
def storyRefinePriority (cfg : StoryConfig) (now : Int)
    (activity : StoryActivity) (consecutiveNoNew : Nat)
    (hasNewStories : Bool) : String :=
  if hasNewStories then "high"
  else
    match activity.lastStoryDate with
    | none =>
      if 10 ≤ consecutiveNoNew then "dormant"
      else if 5 ≤ consecutiveNoNew then "low"
      else "normal"
    | some d =>
      let daysSinceStory := daysBetween now d
      if daysSinceStory ≤ cfg.storyActiveDays then
        if 5 ≤ consecutiveNoNew then "normal" else "high"
      else if daysSinceStory ≤ cfg.storyInactiveDays then
        if 7 ≤ consecutiveNoNew then "low" else "normal"
      else if daysSinceStory ≤ cfg.storyDormantDays then "low"
      else "dormant"

/-- `StoryPollingManager.update_account_priority_after_check`, as the updated
row together with the returned priority.  The priority is recomputed and
written on every check; there is no observation-window gate. -/
def updateAccountPriorityAfterCheck (cfg : StoryConfig) (now : Int)
    (activity : StoryActivity) (hasNewStories : Bool) (meta : StoryMetadata) :
    StoryActivity × String :=
  let newConsecutive :=
    if hasNewStories then 0 else activity.consecutiveNoNewStories + 1
  let newPriority :=
    storyRefinePriority cfg now activity newConsecutive hasNewStories
  let updated :=
    if hasNewStories then
      { activity with
        lastStoryId := meta.latestStoryId
        lastStoryDate := meta.latestStoryDate
        lastChecked := some now
        consecutiveNoNewStories := newConsecutive
        storiesFetchedCount := activity.storiesFetchedCount + meta.storyCount
        storyPollPriority := newPriority }
    else
      { activity with
        lastChecked := some now
        consecutiveNoNewStories := newConsecutive
        storyPollPriority := newPriority }
  (updated, newPriority)

/-- Cadence lookup of the story scheduler's loop; an unknown tier is skipped
(`continue`). -/
def storyCadenceOf (cfg : StoryConfig) (priority : String) : Option Nat :=
  if priority = "high" then some cfg.pollHighEveryN
  else if priority = "normal" then some cfg.pollNormalEveryN
  else if priority = "low" then some cfg.pollLowEveryN
  else if priority = "dormant" then some cfg.pollDormantEveryN
  else none

/-- Selection test of the story scheduler: poll when `cycle % poll_every_n == 0`
for the account's tier. -/
def storySelected (cfg : StoryConfig) (cycle : Nat) (a : StoryActivity) : Bool :=
  match storyCadenceOf cfg a.storyPollPriority with
  | some n => cycle % n == 0
  | none => false

/-- Sort key comparison for `x['last_checked'] or datetime.min`: a missing
timestamp sorts before every present one. -/
def storyKeyLe (a b : StoryActivity) : Bool :=
  match a.lastChecked, b.lastChecked with
  | none, _ => true
  | some _, none => false
  | some x, some y => x ≤ y

/-- `StoryPollingManager.get_accounts_to_poll_this_cycle`: the storage layer
returns only rows with `is_muting_stories = 0`; the cadence filter is applied;
the result is always sorted by `last_checked` (oldest first) and truncated
only when `max_accounts` is truthy and the list is longer. -/
def getAccountsToPollStories (cfg : StoryConfig) (cycle : Nat)
    (allActivities : List StoryActivity) (maxAccounts : Option Nat) :
    List StoryActivity :=
  let unmuted := allActivities.filter (fun a => !a.isMutingStories)
  let accountsToPoll := unmuted.filter (storySelected cfg cycle)
  let sorted := accountsToPoll.mergeSort storyKeyLe
  match maxAccounts with
  | some m => if m ≠ 0 && decide (m < sorted.length) then sorted.take m else sorted
  | none => sorted

/-- An upstream account from the following list, as
`initialize_story_activity_profiles` consumes it. -/
structure FollowedAccount where
  userId : String
  username : String
deriving Repr, DecidableEq

/-- The keyword arguments accepted by `storage.save_account_story_activity`;
`none` models an absent kwarg (for which the storage layer substitutes its
default). -/
structure SaveStoryKwargs where
  isMutingStories : Option Bool := none
  lastStoryId : Option (Option String) := none
  lastStoryDate : Option (Option Int) := none
  lastChecked : Option (Option Int) := none
  storyPollPriority : Option String := none
  consecutiveNoNewStories : Option Nat := none
  storiesFetchedCount : Option Nat := none
deriving Repr, DecidableEq

/-- `storage.save_account_story_activity`: the `account_story_activity` row
written by `INSERT OR REPLACE`, with the Python `kwargs.get` defaults
(`False`, `None`, `None`, `now`, `'normal'`, `0`, `0`). -/
def saveAccountStoryActivity (userId username : String) (now : Int)
    (kw : SaveStoryKwargs) : StoryActivity :=
  { userId := userId
    username := username
    isMutingStories := kw.isMutingStories.getD false
    lastStoryId := kw.lastStoryId.getD none
    lastStoryDate := kw.lastStoryDate.getD none
    lastChecked := kw.lastChecked.getD (some now)
    storyPollPriority := kw.storyPollPriority.getD "normal"
    consecutiveNoNewStories := kw.consecutiveNoNewStories.getD 0
    storiesFetchedCount := kw.storiesFetchedCount.getD 0 }

/-- `StoryPollingManager.initialize_story_activity_profiles`: queries the mute
status of every followed account and writes one `account_story_activity` row
per account (muted ones included) via `storage.save_account_story_activity`,
passing priority `'normal'`, empty story tracking fields, zeroed counters and
the queried mute status.  The recency thresholds in `cfg` are never read. -/
def initializeStoryActivityProfiles (_cfg : StoryConfig) (now : Int)
    (accounts : List FollowedAccount) (muteStatus : String → Bool) :
    List StoryActivity :=
  accounts.map fun acc =>
    saveAccountStoryActivity acc.userId acc.username now
      { isMutingStories := some (muteStatus acc.userId)
        lastStoryId := some none
        lastStoryDate := some none
        lastChecked := some (some now)
        storyPollPriority := some "normal"
        consecutiveNoNewStories := some 0
        storiesFetchedCount := some 0 }

/-! ## Cold-start success rate (`src/api.py`, `_smart_polling_sync`) -/

/-- Outcome of the cold-start probe of one account: the
`check_account_for_new_posts` call either raises (the `except` branch) or
returns a (possibly empty) list of posts. -/
inductive ProbeOutcome where
  | failed
  | succeeded (posts : List String)
deriving Repr, DecidableEq

/-- The `posts_by_account` dict built by the cold-start loop: a succeeded
probe with a non-empty post list stores the posts; a raised probe stores
`[]`; a succeeded probe with zero posts stores nothing (the `if posts:`
guard).  Usernames in the following list are distinct, so the dict is a
list of entries in loop order. -/
def postsByAccount (probes : List (String × ProbeOutcome)) :
    List (String × List String) :=
  probes.filterMap fun p =>
    match p.2 with
    | .succeeded posts => if posts.isEmpty then none else some (p.1, posts)
    | .failed => some (p.1, [])

/-- `successful_accounts = sum(1 for posts in posts_by_account.values() if posts)`. -/
def successfulAccounts (probes : List (String × ProbeOutcome)) : Nat :=
  ((postsByAccount probes).filter (fun entry => !entry.2.isEmpty)).length

/-- `success_rate = successful_accounts / total_accounts if total_accounts > 0
else 0`, with `total_accounts = len(following_accounts)`. -/
def coldStartSuccessRate (probes : List (String × ProbeOutcome)) : ℚ :=
  if 0 < probes.length then
    (successfulAccounts probes : ℚ) / (probes.length : ℚ)
  else 0

/-- The cold-start tail of `_smart_polling_sync`: `mark_initialized()` runs
iff `success_rate < 0.5` is false. -/
def coldStartMarksInitialized (probes : List (String × ProbeOutcome)) : Bool :=
  !(decide (coldStartSuccessRate probes < 1/2))

/-- Modelled from the claim's words (C8): an account counts as successful when
it yielded at least one probe result, including a probe confirming zero
posts — i.e. every probe that did not raise. -/
def successfulAccountsClaim (probes : List (String × ProbeOutcome)) : Nat :=
  (probes.filter fun p =>
    match p.2 with
    | .succeeded _ => true
    | .failed => false).length

/-- Modelled from the claim's words (C8): the initialized flag is set iff the
claim's success rate is at least one half. -/
def coldStartMarksInitializedClaim (probes : List (String × ProbeOutcome)) :
    Bool :=
  if 0 < probes.length then
    decide ((1/2 : ℚ) ≤ (successfulAccountsClaim probes : ℚ) / (probes.length : ℚ))
  else false

/-! ## Resilient operation executor (`src/instagram_client.py`,
`_retry_with_backoff`) -/

/-- The exception taxonomy seen by `_retry_with_backoff`.  A
`PleaseWaitFewMinutes` carries the HTTP status of its attached response when
one is present; `noAttempts` is the generic
`Exception("No attempts made")` placeholder. -/
inductive Exc where
  | pleaseWait (status : Option Nat)
  | loginRequired
  | clientError
  | connectionError
  | unexpected
  | noAttempts
deriving Repr, DecidableEq

/-- `InstagramClient._is_authentication_error`: a `PleaseWaitFewMinutes` whose
response carries status 401, or a direct `LoginRequired`. -/
def isAuthenticationError : Exc → Bool
  | .pleaseWait (some s) => s == 401
  | .loginRequired => true
  | _ => false

/-- Outcome of one invocation of the wrapped function. -/
inductive CallOutcome where
  | ok (v : Nat)
  | exc (e : Exc)
deriving Repr, DecidableEq

/-- Outcome of `self.login()` during re-authentication: a boolean return or a
raised exception. -/
inductive LoginOutcome where
  | ok (b : Bool)
  | exc (e : Exc)
deriving Repr, DecidableEq

/-- Retry configuration (`self.max_retries = 3`, `self.base_backoff = 2`). -/
structure RetryCfg where
  maxRetries : Nat := 3
  baseBackoff : Nat := 2
deriving Repr, DecidableEq

/-- Result of a `_retry_with_backoff` call: a returned value or a raised
exception. -/
inductive RetryResult where
  | ok (v : Nat)
  | raised (e : Exc)
deriving Repr, DecidableEq

/-- Observable behaviour of one `_retry_with_backoff` call: its result, how
many times the wrapped function was invoked, the sleeps performed (in order,
in seconds), and the deltas of the three re-authentication counters. -/
structure RunOut where
  result : RetryResult
  calls : Nat
  sleeps : List Nat
  reauthAttempts : Nat
  reauthSuccesses : Nat
  reauthFailures : Nat
deriving Repr, DecidableEq

/-- The `for attempt in range(self.max_retries)` loop of
`_retry_with_backoff`.  `remaining` counts the loop iterations still
available, so the current `attempt` is `maxRetries - remaining`;
`callIdx` numbers the invocations of the wrapped function;
`authTried` is `auth_retry_attempted`; `lastExc` is `last_exception`.
In both re-authentication branches the nested `except LoginRequired:
raise` re-raises a `LoginRequired` coming out of `self.login()` without
touching `reauth_failures`; only a `False` re-login return or a
non-`LoginRequired` re-login exception increments that counter. -/
def retryAux (cfg : RetryCfg) (func : Nat → CallOutcome)
    (login : LoginOutcome) :
    Nat → Nat → Bool → Exc → RunOut
  | 0, _, _, lastExc =>
    { result := .raised lastExc, calls := 0, sleeps := []
      reauthAttempts := 0, reauthSuccesses := 0, reauthFailures := 0 }
  | remaining + 1, callIdx, authTried, lastExc =>
    let attempt := cfg.maxRetries - (remaining + 1)
    match func callIdx with
    | .ok v =>
      { result := .ok v, calls := 1, sleeps := []
        reauthAttempts := 0, reauthSuccesses := 0, reauthFailures := 0 }
    | .exc (.pleaseWait st) =>
      if isAuthenticationError (.pleaseWait st) && !authTried then
        match login with
        | .ok true =>
          let rest := retryAux cfg func login remaining (callIdx + 1) true lastExc
          { rest with
            calls := rest.calls + 1
            reauthAttempts := rest.reauthAttempts + 1
            reauthSuccesses := rest.reauthSuccesses + 1 }
        | .ok false =>
          { result := .raised .loginRequired, calls := 1, sleeps := []
            reauthAttempts := 1, reauthSuccesses := 0, reauthFailures := 1 }
        | .exc e2 =>
          { result := .raised e2, calls := 1, sleeps := []
            reauthAttempts := 1, reauthSuccesses := 0
            reauthFailures := if e2 = .loginRequired then 0 else 1 }
      else
        let wait := cfg.baseBackoff * 2 ^ attempt * 5
        let rest :=
          retryAux cfg func login remaining (callIdx + 1) authTried (.pleaseWait st)
        { rest with calls := rest.calls + 1, sleeps := wait :: rest.sleeps }
    | .exc .loginRequired =>
      if !authTried then
        match login with
        | .ok true =>
          let rest := retryAux cfg func login remaining (callIdx + 1) true lastExc
          { rest with
            calls := rest.calls + 1
            reauthAttempts := rest.reauthAttempts + 1
            reauthSuccesses := rest.reauthSuccesses + 1 }
        | .ok false =>
          { result := .raised .loginRequired, calls := 1, sleeps := []
            reauthAttempts := 1, reauthSuccesses := 0, reauthFailures := 1 }
        | .exc e2 =>
          { result := .raised e2, calls := 1, sleeps := []
            reauthAttempts := 1, reauthSuccesses := 0
            reauthFailures := if e2 = .loginRequired then 0 else 1 }
      else
        { result := .raised .loginRequired, calls := 1, sleeps := []
          reauthAttempts := 0, reauthSuccesses := 0, reauthFailures := 0 }
    | .exc .clientError =>
      let wait := cfg.baseBackoff * 2 ^ attempt
      let rest :=
        retryAux cfg func login remaining (callIdx + 1) authTried .clientError
      { rest with calls := rest.calls + 1, sleeps := wait :: rest.sleeps }
    | .exc .connectionError =>
      let wait := cfg.baseBackoff * 2 ^ attempt
      let rest :=
        retryAux cfg func login remaining (callIdx + 1) authTried .connectionError
      { rest with calls := rest.calls + 1, sleeps := wait :: rest.sleeps }
    | .exc .unexpected =>
      { result := .raised .unexpected, calls := 1, sleeps := []
        reauthAttempts := 0, reauthSuccesses := 0, reauthFailures := 0 }
    | .exc .noAttempts =>
      { result := .raised .noAttempts, calls := 1, sleeps := []
        reauthAttempts := 0, reauthSuccesses := 0, reauthFailures := 0 }

/-- `_retry_with_backoff` itself: run the loop with the full budget, no
re-authentication attempted yet, and `Exception("No attempts made")` as the
initial last exception. -/
def retryWithBackoff (cfg : RetryCfg) (func : Nat → CallOutcome)
    (login : LoginOutcome) : RunOut :=
  retryAux cfg func login cfg.maxRetries 0 false .noAttempts

/-! ## Claim C1: cycle-based selection -/

/-- The post scheduler's `should_poll` chain holds exactly when the account's
tier has a cadence `n` with `cycle % n == 0`. -/
theorem postShouldPollByCadence_iff (cfg : PollConfig) (cycle : Nat)
    (priority : String) :
    postShouldPollByCadence cfg cycle priority = true ↔
      ∃ n, postCadenceOf cfg priority = some n ∧ cycle % n = 0 := by
  unfold postShouldPollByCadence postCadenceOf
  split_ifs <;> simp

/-- The story scheduler's per-account test holds exactly when the account's
tier has a cadence `n` with `cycle % n == 0`. -/
theorem storySelected_iff (cfg : StoryConfig) (cycle : Nat)
    (a : StoryActivity) :
    storySelected cfg cycle a = true ↔
      ∃ n, storyCadenceOf cfg a.storyPollPriority = some n ∧ cycle % n = 0 := by
  unfold storySelected
  cases h : storyCadenceOf cfg a.storyPollPriority <;> simp

/-- C1 (amended): in the post scheduler an account is selected iff its
username is in the override set or `cycle % n = 0` for its tier's cadence
`n`; the story scheduler has no override mechanism, and an account is
selected there iff it is unmuted and `cycle % n = 0` for its tier's
cadence. -/
theorem cycle_selection_amended (pcfg : PollConfig) (scfg : StoryConfig)
    (cycle : Nat) :
    (∀ (acts : List AccountActivity) (a : AccountActivity), a ∈ acts →
      (a ∈ getAccountsToPollPosts pcfg cycle acts none ↔
        a.username ∈ pcfg.priorityOverrides ∨
          ∃ n, postCadenceOf pcfg a.pollPriority = some n ∧ cycle % n = 0))
    ∧ (∀ (sacts : List StoryActivity) (a : StoryActivity), a ∈ sacts →
      (a ∈ getAccountsToPollStories scfg cycle sacts none ↔
        a.isMutingStories = false ∧
          ∃ n, storyCadenceOf scfg a.storyPollPriority = some n ∧
            cycle % n = 0)) := by
  constructor
  · intro acts a ha
    unfold getAccountsToPollPosts
    simp only [List.mem_filter, ha, true_and]
    unfold postSelected
    by_cases hov : a.username ∈ pcfg.priorityOverrides
    · simp [hov]
    · simp only [hov, if_false, false_or]
      exact postShouldPollByCadence_iff pcfg cycle a.pollPriority
  · intro sacts a ha
    unfold getAccountsToPollStories
    simp only [List.mem_mergeSort, List.mem_filter, ha, true_and]
    constructor
    · rintro ⟨hm, hs⟩
      exact ⟨by simpa using hm, (storySelected_iff _ _ _).mp hs⟩
    · rintro ⟨hm, hs⟩
      exact ⟨by simp [hm], (storySelected_iff _ _ _).mpr hs⟩

/-- A dormant-tier, unmuted story record for the override username. -/
def c1StoryDormantRec : StoryActivity :=
  { userId := "42", username := "alice", isMutingStories := false
    lastStoryId := none, lastStoryDate := none, lastChecked := some 0
    storyPollPriority := "dormant", consecutiveNoNewStories := 0
    storiesFetchedCount := 0 }

unseal List.merge List.mergeSort in
/-- C1 counterexample: the story scheduler ignores the priority override set.
With overrides `["alice"]`, a dormant story account named `alice` is not
selected on cycle 1 (`1 % 12 ≠ 0`), although the claim says an override
username is selected on every cycle in both schedulers. -/
theorem story_override_not_selected :
    ¬ (c1StoryDormantRec ∈
        getAccountsToPollStories {} 1 [c1StoryDormantRec] none ↔
        (1 % ({} : StoryConfig).pollDormantEveryN = 0 ∨
          c1StoryDormantRec.username ∈
            ({ priorityOverrides := ["alice"] } : PollConfig).priorityOverrides)) := by
  decide

/-- A post record with an unknown-by-cadence tier selected purely by
override, and a high-tier story record. -/
def c1PostDormantRec : AccountActivity :=
  { userId := "42", username := "alice", mediaCount := 0, lastPostId := none
    lastPostDate := none, lastChecked := 0, pollPriority := "dormant"
    consecutiveNoNewPosts := 0, createdAt := 0 }

/-- A high-tier unmuted story record. -/
def c1StoryHighRec : StoryActivity :=
  { userId := "7", username := "bob", isMutingStories := false
    lastStoryId := none, lastStoryDate := none, lastChecked := some 0
    storyPollPriority := "high", consecutiveNoNewStories := 0
    storiesFetchedCount := 0 }

/-- Witness for `cycle_selection_amended`: on cycle 1 the dormant post
account `alice` is selected because of the override, and the high-tier
story account `bob` is selected because `1 % 1 = 0`. -/
theorem cycle_selection_amended_witness :
    c1PostDormantRec ∈
      getAccountsToPollPosts { priorityOverrides := ["alice"] } 1
        [c1PostDormantRec] none
    ∧ c1StoryHighRec ∈
        getAccountsToPollStories {} 1 [c1StoryHighRec] none := by
  constructor
  · exact ((cycle_selection_amended { priorityOverrides := ["alice"] } {} 1).1
      [c1PostDormantRec] c1PostDormantRec (by decide)).mpr
      (Or.inl (by decide))
  · exact ((cycle_selection_amended { priorityOverrides := ["alice"] } {} 1).2
      [c1StoryHighRec] c1StoryHighRec (by decide)).mpr
      ⟨rfl, 1, rfl, by decide⟩

/-! ## Claim C3: steady-state post refinement -/

/-- C3 (amended): once past the observation window, if new posts were found,
the most recent one has a known date, and that date is at most
`priority_low_days` old, the new tier is the threshold tier of that date
(with `high` reachable); in every other case — no new posts, no date in the
metadata, or a new-post date older than `priority_low_days` — the tier falls
back to the threshold tier of the `last_post_date` already on record, and is
`dormant` when no date is on record. -/
theorem refine_priority_amended (cfg : PollConfig) (now : Int)
    (a : AccountActivity) (hasNew : Bool) (meta : PostMetadata)
    (hhn : cfg.priorityHighDays ≤ cfg.priorityNormalDays)
    (hnl : cfg.priorityNormalDays ≤ cfg.priorityLowDays) :
    (∀ d, hasNew = true → meta.latestPostDate = some d →
      daysBetween now d ≤ cfg.priorityLowDays →
      refinePriority cfg now a hasNew meta = tierOfDays cfg (daysBetween now d))
    ∧ ((hasNew = false ∨ meta.latestPostDate = none ∨
        (∀ d, meta.latestPostDate = some d →
          cfg.priorityLowDays < daysBetween now d)) →
      refinePriority cfg now a hasNew meta =
        (a.lastPostDate.map fun d => tierOfDays cfg (daysBetween now d)).getD
          "dormant") := by
  have hfall :
      (match a.lastPostDate with
        | some d =>
          if daysBetween now d ≤ cfg.priorityHighDays then "high"
          else if daysBetween now d ≤ cfg.priorityNormalDays then "normal"
          else if daysBetween now d ≤ cfg.priorityLowDays then "low"
          else "dormant"
        | none => "dormant")
      = (a.lastPostDate.map fun d => tierOfDays cfg (daysBetween now d)).getD
          "dormant" := by
    cases a.lastPostDate <;> simp [tierOfDays]
  constructor
  · intro d hn hm hle
    simp only [refinePriority, hn, hm, tierOfDays, if_true]
    split_ifs <;> first | rfl | omega
  · intro hcase
    cases hn : hasNew with
    | false =>
      simp only [refinePriority, Bool.false_eq_true, if_false]
      exact hfall
    | true =>
      cases hm : meta.latestPostDate with
      | none =>
        simp only [refinePriority, hm, if_true]
        exact hfall
      | some d =>
        have hd : cfg.priorityLowDays < daysBetween now d := by
          rcases hcase with hn2 | hm2 | hgt
          · rw [hn] at hn2
            cases hn2
          · rw [hm] at hm2
            cases hm2
          · exact hgt d hm
        simp only [refinePriority, hm, if_true]
        rw [if_neg (by omega), if_neg (by omega), if_neg (by omega)]
        exact hfall

/-- Activity record whose recorded `last_post_date` is 5 days old. -/
def c3Activity : AccountActivity :=
  { userId := "1", username := "a", mediaCount := 0, lastPostId := none
    lastPostDate := some (995 * 86400), lastChecked := 0
    pollPriority := "normal", consecutiveNoNewPosts := 0, createdAt := 0 }

/-- Metadata whose most recent new post is 200 days old. -/
def c3Meta : PostMetadata :=
  { mediaCount := none, latestPostId := none
    latestPostDate := some (800 * 86400) }

/-- C3 counterexample: new posts were found and the most recent one is 200
days old — beyond `priority_low_days = 180`, so the claim's threshold tier
for that date is `dormant` — but the code falls through to the recorded
`last_post_date` (5 days old) and returns `high`. -/
theorem refine_priority_counterexample :
    refinePriority {} (1000 * 86400) c3Activity true c3Meta = "high"
    ∧ tierOfDays {} (daysBetween (1000 * 86400) (800 * 86400)) = "dormant"
    ∧ ("high" : String) ≠ "dormant" := by
  refine ⟨by decide, by decide, by decide⟩

/-- Witness for `refine_priority_amended`: a new post 3 days old refines to
`high`; with no new posts, a record whose last known post is 60 days old
refines to `low`. -/
theorem refine_priority_amended_witness :
    refinePriority {} (1000 * 86400) c3Activity true
      { mediaCount := none, latestPostId := none
        latestPostDate := some (997 * 86400) } = "high"
    ∧ refinePriority {} (1000 * 86400)
        { c3Activity with lastPostDate := some (940 * 86400) } false c3Meta =
        "low" := by
  constructor
  · have h := (refine_priority_amended {} (1000 * 86400) c3Activity true
      { mediaCount := none, latestPostId := none
        latestPostDate := some (997 * 86400) } (by decide) (by decide)).1
      (997 * 86400) rfl rfl (by decide)
    rw [h]
    decide
  · have h := (refine_priority_amended {} (1000 * 86400)
      { c3Activity with lastPostDate := some (940 * 86400) } false c3Meta
      (by decide) (by decide)).2 (Or.inl rfl)
    rw [h]
    decide

/-! ## Claim C5: 24-hour hysteresis for post priority -/

/-- C5: for an account whose state is less than 24 hours old, the updated row
keeps `poll_priority` unchanged while still updating `last_checked` and
`media_count`, and either advancing `last_post_id`/`last_post_date` and
resetting the no-new-posts counter (new posts) or incrementing it (no new
posts). -/
theorem hysteresis_blocks_priority_change (cfg : PollConfig) (now : Int)
    (a : AccountActivity) (hasNew : Bool) (meta : PostMetadata)
    (h : now - a.createdAt < 86400) :
    (updateAccountPriority cfg now a hasNew meta).pollPriority = a.pollPriority
    ∧ (updateAccountPriority cfg now a hasNew meta).lastChecked = now
    ∧ (updateAccountPriority cfg now a hasNew meta).mediaCount =
        meta.mediaCount.getD a.mediaCount
    ∧ (hasNew = true →
        (updateAccountPriority cfg now a hasNew meta).lastPostId =
            meta.latestPostId
        ∧ (updateAccountPriority cfg now a hasNew meta).lastPostDate =
            meta.latestPostDate
        ∧ (updateAccountPriority cfg now a hasNew meta).consecutiveNoNewPosts
            = 0)
    ∧ (hasNew = false →
        (updateAccountPriority cfg now a hasNew meta).lastPostId =
            a.lastPostId
        ∧ (updateAccountPriority cfg now a hasNew meta).lastPostDate =
            a.lastPostDate
        ∧ (updateAccountPriority cfg now a hasNew meta).consecutiveNoNewPosts
            = a.consecutiveNoNewPosts + 1) := by
  have hgate : ¬ (86400 ≤ now - a.createdAt) := not_le.mpr h
  cases hasNew <;>
    simp [updateAccountPriority, hgate]

/-- A fresh activity record (created at time 0) with priority `normal`. -/
def c5Rec : AccountActivity :=
  { userId := "9", username := "c", mediaCount := 2, lastPostId := some "p0"
    lastPostDate := some 0, lastChecked := 0, pollPriority := "normal"
    consecutiveNoNewPosts := 4, createdAt := 0 }

/-- Witness for `hysteresis_blocks_priority_change`: 1000 seconds after
creation, a new post (which would qualify for `high`) still leaves the
priority at `normal`, while the tracking fields advance. -/
theorem hysteresis_blocks_priority_change_witness :
    (updateAccountPriority {} 1000 c5Rec true
        { mediaCount := some 5, latestPostId := some "p1"
          latestPostDate := some 900 }).pollPriority = "normal"
    ∧ (updateAccountPriority {} 1000 c5Rec true
        { mediaCount := some 5, latestPostId := some "p1"
          latestPostDate := some 900 }).lastPostDate = some 900
    ∧ (updateAccountPriority {} 1000 c5Rec true
        { mediaCount := some 5, latestPostId := some "p1"
          latestPostDate := some 900 }).consecutiveNoNewPosts = 0 := by
  have h := hysteresis_blocks_priority_change {} 1000 c5Rec true
    { mediaCount := some 5, latestPostId := some "p1"
      latestPostDate := some 900 } (by decide)
  refine ⟨?_, ?_, ?_⟩
  · rw [h.1]
    rfl
  · rw [(h.2.2.2.1 rfl).2.1]
  · rw [(h.2.2.2.1 rfl).2.2]

/-! ## Claim C4: story refinement, no hysteresis -/

/-- C4: story refinement runs on every check — the updated row's priority is
always the refined priority computed with the post-update consecutive-miss
counter — and the refined priority follows the claimed case table: high on
new stories; with no recorded story date, dormant / low / normal by the miss
counter; otherwise by recency buckets blended with the miss counter. -/
theorem story_refinement_cases (cfg : StoryConfig) (now : Int)
    (a : StoryActivity) (c : Nat) (hasNew : Bool) (meta : StoryMetadata)
    (hai : cfg.storyActiveDays ≤ cfg.storyInactiveDays)
    (hid : cfg.storyInactiveDays ≤ cfg.storyDormantDays) :
    ((updateAccountPriorityAfterCheck cfg now a hasNew meta).1.storyPollPriority
      = storyRefinePriority cfg now a
          (if hasNew then 0 else a.consecutiveNoNewStories + 1) hasNew)
    ∧ ((updateAccountPriorityAfterCheck cfg now a hasNew meta).2
      = storyRefinePriority cfg now a
          (if hasNew then 0 else a.consecutiveNoNewStories + 1) hasNew)
    ∧ (hasNew = true → storyRefinePriority cfg now a c hasNew = "high")
    ∧ (hasNew = false → a.lastStoryDate = none →
        (10 ≤ c → storyRefinePriority cfg now a c hasNew = "dormant")
        ∧ (5 ≤ c → c < 10 → storyRefinePriority cfg now a c hasNew = "low")
        ∧ (c < 5 → storyRefinePriority cfg now a c hasNew = "normal"))
    ∧ (∀ d, hasNew = false → a.lastStoryDate = some d →
        (daysBetween now d ≤ cfg.storyActiveDays →
          ((5 ≤ c → storyRefinePriority cfg now a c hasNew = "normal")
          ∧ (c < 5 → storyRefinePriority cfg now a c hasNew = "high")))
        ∧ (cfg.storyActiveDays < daysBetween now d →
            daysBetween now d ≤ cfg.storyInactiveDays →
          ((7 ≤ c → storyRefinePriority cfg now a c hasNew = "low")
          ∧ (c < 7 → storyRefinePriority cfg now a c hasNew = "normal")))
        ∧ (cfg.storyInactiveDays < daysBetween now d →
            daysBetween now d ≤ cfg.storyDormantDays →
            storyRefinePriority cfg now a c hasNew = "low")
        ∧ (cfg.storyDormantDays < daysBetween now d →
            storyRefinePriority cfg now a c hasNew = "dormant")) := by
  refine ⟨?_, ?_, ?_, ?_, ?_⟩
  · cases hasNew <;> simp [updateAccountPriorityAfterCheck]
  · cases hasNew <;> simp [updateAccountPriorityAfterCheck]
  · intro hn
    simp [storyRefinePriority, hn]
  · intro hn hdate
    simp only [storyRefinePriority, hn, Bool.false_eq_true, if_false, hdate]
    refine ⟨fun h10 => ?_, fun h5 _ => ?_, fun hlt => ?_⟩
    · rw [if_pos h10]
    · rw [if_neg (by omega), if_pos h5]
    · rw [if_neg (by omega), if_neg (by omega)]
  · intro d hn hdate
    simp only [storyRefinePriority, hn, Bool.false_eq_true, if_false, hdate]
    refine ⟨fun hle => ⟨fun h5 => ?_, fun h5 => ?_⟩,
      fun h1 h2 => ⟨fun h7 => ?_, fun h7 => ?_⟩,
      fun h1 h2 => ?_, fun h1 => ?_⟩
    · rw [if_pos hle, if_pos h5]
    · rw [if_pos hle, if_neg (by omega)]
    · rw [if_neg (by omega), if_pos h2, if_pos h7]
    · rw [if_neg (by omega), if_pos h2, if_neg (by omega)]
    · rw [if_neg (by omega), if_neg (by omega), if_pos h2]
    · rw [if_neg (by omega), if_neg (by omega), if_neg (by omega)]

/-- A base story record used to exercise the refinement cases. -/
def c4Rec : StoryActivity :=
  { userId := "3", username := "s", isMutingStories := false
    lastStoryId := some "s0", lastStoryDate := some 0, lastChecked := some 0
    storyPollPriority := "normal", consecutiveNoNewStories := 0
    storiesFetchedCount := 1 }

/-- Story metadata used to exercise the refinement cases. -/
def c4Meta : StoryMetadata :=
  { latestStoryId := some "s1", latestStoryDate := some 0, storyCount := 2 }

/-- Witness for `story_refinement_cases`: new stories give `high`; no
recorded date with 10 misses gives `dormant`; a story 1 day old with 1 miss
gives `high`; a story 10 days old with 3 misses gives `normal`. -/
theorem story_refinement_cases_witness :
    (updateAccountPriorityAfterCheck {} 0 c4Rec true c4Meta).1.storyPollPriority
        = "high"
    ∧ storyRefinePriority {} (10 * 86400)
        { c4Rec with lastStoryDate := none } 10 false = "dormant"
    ∧ storyRefinePriority {} (10 * 86400)
        { c4Rec with lastStoryDate := some (9 * 86400) } 1 false = "high"
    ∧ storyRefinePriority {} (10 * 86400)
        { c4Rec with lastStoryDate := some 0 } 3 false = "normal" := by
  have h1 := story_refinement_cases {} 0 c4Rec 0 true c4Meta
    (by decide) (by decide)
  have h2 := story_refinement_cases {} (10 * 86400)
    { c4Rec with lastStoryDate := none } 10 false c4Meta
    (by decide) (by decide)
  have h3 := story_refinement_cases {} (10 * 86400)
    { c4Rec with lastStoryDate := some (9 * 86400) } 1 false c4Meta
    (by decide) (by decide)
  have h4 := story_refinement_cases {} (10 * 86400)
    { c4Rec with lastStoryDate := some 0 } 3 false c4Meta
    (by decide) (by decide)
  refine ⟨?_, ?_, ?_, ?_⟩
  · rw [h1.1]
    exact h1.2.2.1 rfl
  · exact (h2.2.2.2.1 rfl rfl).1 (by decide)
  · exact ((h3.2.2.2.2 (9 * 86400) rfl rfl).1 (by decide)).2 (by decide)
  · exact ((h4.2.2.2.2 0 rfl rfl).2.1 (by decide) (by decide)).2 (by decide)

/-! ## Claim C10: story cold-start initialization -/

/-- C10: story cold start writes one row per followed account — muted
accounts included — with priority `normal`, absent story id/date, zeroed
counters and the freshly queried mute status; and the row list is identical
under any other recency-threshold configuration (the thresholds are never
consulted). -/
theorem story_cold_start_profiles (cfg cfg2 : StoryConfig) (now : Int)
    (accounts : List FollowedAccount) (muteStatus : String → Bool) :
    initializeStoryActivityProfiles cfg now accounts muteStatus =
      accounts.map (fun acc =>
        { userId := acc.userId
          username := acc.username
          isMutingStories := muteStatus acc.userId
          lastStoryId := none
          lastStoryDate := none
          lastChecked := some now
          storyPollPriority := "normal"
          consecutiveNoNewStories := 0
          storiesFetchedCount := 0 })
    ∧ initializeStoryActivityProfiles cfg now accounts muteStatus =
        initializeStoryActivityProfiles cfg2 now accounts muteStatus := by
  exact ⟨by simp [initializeStoryActivityProfiles, saveAccountStoryActivity],
    rfl⟩

/-! ## Claim C8: cold-start success rate -/

/-- C8 counterexample: a single account whose probe succeeded but confirmed
zero posts.  The claim counts it as successful (rate 1, flag set); the code
counts only accounts with a non-empty post list (rate 0, flag withheld). -/
theorem cold_start_zero_posts_counterexample :
    coldStartMarksInitialized [("a", .succeeded [])] = false
    ∧ coldStartMarksInitializedClaim [("a", .succeeded [])] = true := by
  constructor
  · simp [coldStartMarksInitialized, coldStartSuccessRate, successfulAccounts,
      postsByAccount]
  · simp [coldStartMarksInitializedClaim, successfulAccountsClaim]
    norm_num

/-- C8 (amended): the cold-start success count is the number of accounts
whose probe returned at least one post (raised probes and confirmed-zero-post
probes both count as failures), and the initialized flag is set iff there was
at least one account and that count is at least half the total. -/
theorem cold_start_rate_amended (probes : List (String × ProbeOutcome)) :
    successfulAccounts probes =
      (probes.filter fun p =>
        match p.2 with
        | .succeeded posts => !posts.isEmpty
        | .failed => false).length
    ∧ (coldStartMarksInitialized probes = true ↔
        0 < probes.length ∧
          (1/2 : ℚ) ≤ (successfulAccounts probes : ℚ) / (probes.length : ℚ)) := by
  constructor
  · induction probes with
    | nil => rfl
    | cons p rest ih =>
      obtain ⟨u, o⟩ := p
      cases o with
      | failed =>
        simpa [successfulAccounts, postsByAccount, List.filterMap_cons,
          List.filter_cons] using ih
      | succeeded ps =>
        by_cases hps : ps = []
        · simpa [successfulAccounts, postsByAccount, List.filterMap_cons,
            List.filter_cons, hps] using ih
        · simpa [successfulAccounts, postsByAccount, List.filterMap_cons,
            List.filter_cons, hps, List.isEmpty_iff] using ih
  · by_cases hlen : 0 < probes.length
    · simp [coldStartMarksInitialized, coldStartSuccessRate, hlen, not_lt]
    · have hq : ((0 : ℚ) < 1/2) := by norm_num
      simp [coldStartMarksInitialized, coldStartSuccessRate, hlen, hq]

/-! ## Claim C9: capacity-constrained truncation -/

/-- The post sort key comparison is transitive. -/
theorem postKeyLe_trans (a b c : AccountActivity) (hab : postKeyLe a b = true)
    (hbc : postKeyLe b c = true) : postKeyLe a c = true := by
  simp only [postKeyLe, Bool.or_eq_true, Bool.and_eq_true, decide_eq_true_eq,
    beq_iff_eq] at hab hbc ⊢
  omega

/-- The post sort key comparison is total. -/
theorem postKeyLe_total (a b : AccountActivity) :
    (postKeyLe a b || postKeyLe b a) = true := by
  simp only [postKeyLe, Bool.or_eq_true, Bool.and_eq_true, decide_eq_true_eq,
    beq_iff_eq]
  omega

/-- The story sort key comparison is transitive. -/
theorem storyKeyLe_trans (a b c : StoryActivity) (hab : storyKeyLe a b = true)
    (hbc : storyKeyLe b c = true) : storyKeyLe a c = true := by
  unfold storyKeyLe at hab hbc ⊢
  cases ha : a.lastChecked <;> cases hb : b.lastChecked <;>
    cases hc : c.lastChecked <;> simp_all <;> omega

/-- The story sort key comparison is total. -/
theorem storyKeyLe_total (a b : StoryActivity) :
    (storyKeyLe a b || storyKeyLe b a) = true := by
  unfold storyKeyLe
  cases ha : a.lastChecked <;> cases hb : b.lastChecked <;> simp_all <;> omega

/-- Every element kept by `take m` after a stable sort compares at most every
element of the original list that was dropped. -/
theorem mergeSort_take_le {α : Type} (le : α → α → Bool)
    (htrans : ∀ a b c, le a b = true → le b c = true → le a c = true)
    (htotal : ∀ a b, (le a b || le b a) = true)
    (l : List α) (m : Nat) (x y : α)
    (hx : x ∈ (l.mergeSort le).take m) (hy : y ∈ l)
    (hyn : y ∉ (l.mergeSort le).take m) : le x y = true := by
  have hpair : List.Pairwise (fun a b => le a b = true) (l.mergeSort le) :=
    List.sorted_mergeSort htrans htotal l
  have hy2 : y ∈ l.mergeSort le := List.mem_mergeSort.mpr hy
  rw [← List.take_append_drop m (l.mergeSort le)] at hpair hy2
  rcases List.mem_append.mp hy2 with h | h
  · exact absurd h hyn
  · exact (List.pairwise_append.mp hpair).2.2 x hx y h

/-- C9 (amended): when a positive maximum `m` is configured, the post
scheduler keeps a subset of the eligible set of size `min m eligible`,
minimal under the lexicographic `(tier_rank, last_checked)` key; the story
scheduler also truncates to `m`, but its retained accounts are minimal under
`last_checked` alone — tier rank plays no part in its ordering. -/
theorem capacity_truncation_amended (pcfg : PollConfig) (scfg : StoryConfig)
    (cycle : Nat) (acts : List AccountActivity) (sacts : List StoryActivity)
    (m : Nat) (hm : 0 < m) :
    (∀ x ∈ getAccountsToPollPosts pcfg cycle acts (some m),
        x ∈ acts.filter (postSelected pcfg cycle))
    ∧ (getAccountsToPollPosts pcfg cycle acts (some m)).length =
        min m (acts.filter (postSelected pcfg cycle)).length
    ∧ (∀ x ∈ getAccountsToPollPosts pcfg cycle acts (some m),
        ∀ y ∈ acts.filter (postSelected pcfg cycle),
          y ∉ getAccountsToPollPosts pcfg cycle acts (some m) →
          postKeyLe x y = true)
    ∧ (∀ x ∈ getAccountsToPollStories scfg cycle sacts (some m),
        x ∈ (sacts.filter (fun a => !a.isMutingStories)).filter
          (storySelected scfg cycle))
    ∧ (getAccountsToPollStories scfg cycle sacts (some m)).length =
        min m ((sacts.filter (fun a => !a.isMutingStories)).filter
          (storySelected scfg cycle)).length
    ∧ (∀ x ∈ getAccountsToPollStories scfg cycle sacts (some m),
        ∀ y ∈ (sacts.filter (fun a => !a.isMutingStories)).filter
          (storySelected scfg cycle),
          y ∉ getAccountsToPollStories scfg cycle sacts (some m) →
          storyKeyLe x y = true) := by
  have hpost :
      getAccountsToPollPosts pcfg cycle acts (some m) =
        ((acts.filter (postSelected pcfg cycle)).mergeSort postKeyLe).take m := by
    simp [getAccountsToPollPosts, hm]
  by_cases hlt : m <
      ((sacts.filter (fun a => !a.isMutingStories)).filter
        (storySelected scfg cycle)).length
  case pos =>
    have hstory :
        getAccountsToPollStories scfg cycle sacts (some m) =
          (((sacts.filter (fun a => !a.isMutingStories)).filter
            (storySelected scfg cycle)).mergeSort storyKeyLe).take m := by
      simp [getAccountsToPollStories, List.length_mergeSort, hlt,
        Nat.pos_iff_ne_zero.mp hm]
    refine ⟨?_, ?_, ?_, ?_, ?_, ?_⟩
    · intro x hx
      rw [hpost] at hx
      exact List.mem_mergeSort.mp (List.mem_of_mem_take hx)
    · rw [hpost, List.length_take, List.length_mergeSort]
    · intro x hx y hy hyn
      rw [hpost] at hx hyn
      exact mergeSort_take_le postKeyLe postKeyLe_trans postKeyLe_total _ m x y
        hx hy hyn
    · intro x hx
      rw [hstory] at hx
      exact List.mem_mergeSort.mp (List.mem_of_mem_take hx)
    · rw [hstory, List.length_take, List.length_mergeSort]
    · intro x hx y hy hyn
      rw [hstory] at hx hyn
      exact mergeSort_take_le storyKeyLe storyKeyLe_trans storyKeyLe_total _
        m x y hx hy hyn
  case neg =>
    have hstory :
        getAccountsToPollStories scfg cycle sacts (some m) =
          ((sacts.filter (fun a => !a.isMutingStories)).filter
            (storySelected scfg cycle)).mergeSort storyKeyLe := by
      simp only [List.filter_filter] at hlt
      simp [getAccountsToPollStories, List.length_mergeSort, hlt]
    refine ⟨?_, ?_, ?_, ?_, ?_, ?_⟩
    · intro x hx
      rw [hpost] at hx
      exact List.mem_mergeSort.mp (List.mem_of_mem_take hx)
    · rw [hpost, List.length_take, List.length_mergeSort]
    · intro x hx y hy hyn
      rw [hpost] at hx hyn
      exact mergeSort_take_le postKeyLe postKeyLe_trans postKeyLe_total _ m x y
        hx hy hyn
    · intro x hx
      rw [hstory] at hx
      exact List.mem_mergeSort.mp hx
    · rw [hstory, List.length_mergeSort]
      omega
    · intro x hx y hy hyn
      rw [hstory] at hyn
      exact absurd (List.mem_mergeSort.mpr hy) hyn

/-- A high-tier unmuted story record checked more recently. -/
def c9StoryHigh : StoryActivity :=
  { userId := "1", username := "h", isMutingStories := false
    lastStoryId := none, lastStoryDate := none, lastChecked := some 100
    storyPollPriority := "high", consecutiveNoNewStories := 0
    storiesFetchedCount := 0 }

/-- A dormant-tier unmuted story record checked less recently. -/
def c9StoryDormant : StoryActivity :=
  { userId := "2", username := "d", isMutingStories := false
    lastStoryId := none, lastStoryDate := none, lastChecked := some 50
    storyPollPriority := "dormant", consecutiveNoNewStories := 0
    storiesFetchedCount := 0 }

unseal List.merge List.mergeSort in
/-- C9 counterexample: with capacity 1 on cycle 0, the story scheduler keeps
the dormant account (older `last_checked`) and drops an eligible high-tier
account — the claimed `(tier_rank, last_checked)` ordering would have kept
the high-tier one. -/
theorem capacity_truncation_counterexample :
    getAccountsToPollStories {} 0 [c9StoryHigh, c9StoryDormant] (some 1) =
      [c9StoryDormant]
    ∧ c9StoryHigh ∈ ([c9StoryHigh, c9StoryDormant].filter
        (fun a => !a.isMutingStories)).filter (storySelected {} 0)
    ∧ priorityOrder c9StoryHigh.storyPollPriority <
        priorityOrder c9StoryDormant.storyPollPriority := by
  refine ⟨by decide, by decide, by decide⟩

/-- A normal-tier post record selected on cycle 0. -/
def c9PostRec : AccountActivity :=
  { userId := "5", username := "p", mediaCount := 0, lastPostId := none
    lastPostDate := none, lastChecked := 10, pollPriority := "normal"
    consecutiveNoNewPosts := 0, createdAt := 0 }

/-- Witness for `capacity_truncation_amended` at capacity 1 over a singleton
post list and an empty story list. -/
theorem capacity_truncation_amended_witness :
    (getAccountsToPollPosts {} 0 [c9PostRec] (some 1)).length =
      min 1 ([c9PostRec].filter (postSelected {} 0)).length := by
  exact (capacity_truncation_amended {} {} 0 [c9PostRec] [] 1 (by decide)).2.1

/-! ## Claim C7: retry budget and backoff -/

/-- While every remaining call raises a transient client error, the loop
sleeps `base * 2 ^ attempt` for each attempt, uses up the whole remaining
budget and raises the last error. -/
theorem retryAux_clientError (cfg : RetryCfg) (func : Nat → CallOutcome)
    (login : LoginOutcome) :
    ∀ (remaining a callIdx : Nat) (authTried : Bool) (lastExc : Exc),
      a + remaining = cfg.maxRetries →
      (∀ i, i < remaining → func (callIdx + i) = .exc .clientError) →
      retryAux cfg func login remaining callIdx authTried lastExc =
        { result := .raised (if remaining = 0 then lastExc else .clientError)
          calls := remaining
          sleeps := (List.range remaining).map
            (fun j => cfg.baseBackoff * 2 ^ (a + j))
          reauthAttempts := 0, reauthSuccesses := 0, reauthFailures := 0 } := by
  intro remaining
  induction remaining with
  | zero =>
    intro a callIdx authTried lastExc _ _
    simp [retryAux]
  | succ n ih =>
    intro a callIdx authTried lastExc ha hfunc
    have h0 : func callIdx = .exc .clientError := by
      simpa using hfunc 0 n.succ_pos
    have hrest : ∀ i, i < n → func (callIdx + 1 + i) = .exc .clientError := by
      intro i hi
      have := hfunc (i + 1) (Nat.succ_lt_succ hi)
      simpa [Nat.add_comm, Nat.add_left_comm] using this
    have hatt : cfg.maxRetries - (n + 1) = a := by omega
    simp only [retryAux, h0, hatt]
    rw [ih (a + 1) (callIdx + 1) authTried .clientError (by omega) hrest]
    have hmap : (List.range (n + 1)).map (fun j => cfg.baseBackoff * 2 ^ (a + j))
        = (cfg.baseBackoff * 2 ^ a) ::
          (List.range n).map (fun j => cfg.baseBackoff * 2 ^ (a + 1 + j)) := by
      rw [List.range_succ_eq_map, List.map_cons, List.map_map]
      refine congrArg₂ _ (by rw [Nat.add_zero]) ?_
      refine List.map_congr_left fun j _ => ?_
      have : a + (j + 1) = a + 1 + j := by omega
      simp [Function.comp, Nat.succ_eq_add_one, this]
    rw [hmap]
    cases n <;> simp

/-- While every remaining call raises a non-authentication
`PleaseWaitFewMinutes` (or authentication was already retried), the loop
sleeps `base * 2 ^ attempt * 5` for each attempt, uses up the whole remaining
budget and raises the last error. -/
theorem retryAux_rateLimited (cfg : RetryCfg) (func : Nat → CallOutcome)
    (login : LoginOutcome) (st : Option Nat) :
    ∀ (remaining a callIdx : Nat) (authTried : Bool) (lastExc : Exc),
      a + remaining = cfg.maxRetries →
      (isAuthenticationError (.pleaseWait st) && !authTried) = false →
      (∀ i, i < remaining → func (callIdx + i) = .exc (.pleaseWait st)) →
      retryAux cfg func login remaining callIdx authTried lastExc =
        { result :=
            .raised (if remaining = 0 then lastExc else .pleaseWait st)
          calls := remaining
          sleeps := (List.range remaining).map
            (fun j => cfg.baseBackoff * 2 ^ (a + j) * 5)
          reauthAttempts := 0, reauthSuccesses := 0, reauthFailures := 0 } := by
  intro remaining
  induction remaining with
  | zero =>
    intro a callIdx authTried lastExc _ _ _
    simp [retryAux]
  | succ n ih =>
    intro a callIdx authTried lastExc ha hcond hfunc
    have h0 : func callIdx = .exc (.pleaseWait st) := by
      simpa using hfunc 0 n.succ_pos
    have hrest : ∀ i, i < n → func (callIdx + 1 + i) = .exc (.pleaseWait st) := by
      intro i hi
      have := hfunc (i + 1) (Nat.succ_lt_succ hi)
      simpa [Nat.add_comm, Nat.add_left_comm] using this
    have hatt : cfg.maxRetries - (n + 1) = a := by omega
    simp only [retryAux, h0, hatt, hcond, Bool.false_eq_true, if_false]
    rw [ih (a + 1) (callIdx + 1) authTried (.pleaseWait st) (by omega) hcond
      hrest]
    have hmap : (List.range (n + 1)).map
          (fun j => cfg.baseBackoff * 2 ^ (a + j) * 5)
        = (cfg.baseBackoff * 2 ^ a * 5) ::
          (List.range n).map (fun j => cfg.baseBackoff * 2 ^ (a + 1 + j) * 5) := by
      rw [List.range_succ_eq_map, List.map_cons, List.map_map]
      refine congrArg₂ _ (by rw [Nat.add_zero]) ?_
      refine List.map_congr_left fun j _ => ?_
      have : a + (j + 1) = a + 1 + j := by omega
      simp [Function.comp, Nat.succ_eq_add_one, this]
    rw [hmap]
    cases n <;> simp

/-- If the first `k` calls raise transient client errors and call `k`
succeeds within the remaining budget, the loop returns the value after
`k + 1` calls and `k` sleeps. -/
theorem retryAux_successAfter (cfg : RetryCfg) (func : Nat → CallOutcome)
    (login : LoginOutcome) (v : Nat) :
    ∀ (k remaining a callIdx : Nat) (authTried : Bool) (lastExc : Exc),
      a + remaining = cfg.maxRetries →
      k < remaining →
      (∀ i, i < k → func (callIdx + i) = .exc .clientError) →
      func (callIdx + k) = .ok v →
      retryAux cfg func login remaining callIdx authTried lastExc =
        { result := .ok v
          calls := k + 1
          sleeps := (List.range k).map (fun j => cfg.baseBackoff * 2 ^ (a + j))
          reauthAttempts := 0, reauthSuccesses := 0, reauthFailures := 0 } := by
  intro k
  induction k with
  | zero =>
    intro remaining a callIdx authTried lastExc ha hk _ hok
    obtain ⟨n, rfl⟩ : ∃ n, remaining = n + 1 :=
      ⟨remaining - 1, (Nat.succ_pred_eq_of_pos hk).symm⟩
    have h0 : func callIdx = .ok v := by simpa using hok
    simp [retryAux, h0]
  | succ k ih =>
    intro remaining a callIdx authTried lastExc ha hk hfunc hok
    obtain ⟨n, rfl⟩ : ∃ n, remaining = n + 1 :=
      ⟨remaining - 1, (Nat.succ_pred_eq_of_pos (by omega)).symm⟩
    have h0 : func callIdx = .exc .clientError := by
      simpa using hfunc 0 k.succ_pos
    have hrest : ∀ i, i < k → func (callIdx + 1 + i) = .exc .clientError := by
      intro i hi
      have := hfunc (i + 1) (Nat.succ_lt_succ hi)
      simpa [Nat.add_comm, Nat.add_left_comm] using this
    have hok2 : func (callIdx + 1 + k) = .ok v := by
      have : callIdx + 1 + k = callIdx + (k + 1) := by omega
      rw [this]
      exact hok
    have hatt : cfg.maxRetries - (n + 1) = a := by omega
    simp only [retryAux, h0, hatt]
    rw [ih n (a + 1) (callIdx + 1) authTried .clientError (by omega)
      (Nat.lt_of_succ_lt_succ hk) hrest hok2]
    have hmap : (List.range (k + 1)).map (fun j => cfg.baseBackoff * 2 ^ (a + j))
        = (cfg.baseBackoff * 2 ^ a) ::
          (List.range k).map (fun j => cfg.baseBackoff * 2 ^ (a + 1 + j)) := by
      rw [List.range_succ_eq_map, List.map_cons, List.map_map]
      refine congrArg₂ _ (by rw [Nat.add_zero]) ?_
      refine List.map_congr_left fun j _ => ?_
      have : a + (j + 1) = a + 1 + j := by omega
      simp [Function.comp, Nat.succ_eq_add_one, this]
    rw [hmap]

/-- C7: transient client/network errors back off `base * 2 ^ attempt` and are
retried up to `max_retries` total attempts, raising the last error on
exhaustion; a success within the budget returns after exactly the failed
attempts plus one; rate-limit signals use the five-fold backoff with the same
budget; any unexpected error is raised immediately after a single call. -/
theorem executor_backoff_and_budget (cfg : RetryCfg) (func : Nat → CallOutcome)
    (login : LoginOutcome) (hpos : 0 < cfg.maxRetries) :
    ((∀ i, i < cfg.maxRetries → func i = .exc .clientError) →
      retryWithBackoff cfg func login =
        { result := .raised .clientError, calls := cfg.maxRetries
          sleeps := (List.range cfg.maxRetries).map
            (fun j => cfg.baseBackoff * 2 ^ j)
          reauthAttempts := 0, reauthSuccesses := 0, reauthFailures := 0 })
    ∧ (∀ k v, k < cfg.maxRetries →
        (∀ i, i < k → func i = .exc .clientError) → func k = .ok v →
        retryWithBackoff cfg func login =
          { result := .ok v, calls := k + 1
            sleeps := (List.range k).map (fun j => cfg.baseBackoff * 2 ^ j)
            reauthAttempts := 0, reauthSuccesses := 0, reauthFailures := 0 })
    ∧ ((∀ i, i < cfg.maxRetries → func i = .exc (.pleaseWait (some 429))) →
        retryWithBackoff cfg func login =
          { result := .raised (.pleaseWait (some 429)), calls := cfg.maxRetries
            sleeps := (List.range cfg.maxRetries).map
              (fun j => cfg.baseBackoff * 2 ^ j * 5)
            reauthAttempts := 0, reauthSuccesses := 0, reauthFailures := 0 })
    ∧ (func 0 = .exc .unexpected →
        retryWithBackoff cfg func login =
          { result := .raised .unexpected, calls := 1, sleeps := []
            reauthAttempts := 0, reauthSuccesses := 0, reauthFailures := 0 }) := by
  refine ⟨?_, ?_, ?_, ?_⟩
  · intro hfunc
    unfold retryWithBackoff
    rw [retryAux_clientError cfg func login cfg.maxRetries 0 0 false .noAttempts
      (by omega) (by simpa using hfunc)]
    simp [Nat.pos_iff_ne_zero.mp hpos]
  · intro k v hk hfunc hok
    unfold retryWithBackoff
    rw [retryAux_successAfter cfg func login v k cfg.maxRetries 0 0 false
      .noAttempts (by omega) hk (by simpa using hfunc) (by simpa using hok)]
    simp
  · intro hfunc
    unfold retryWithBackoff
    rw [retryAux_rateLimited cfg func login (some 429) cfg.maxRetries 0 0 false
      .noAttempts (by omega) (by decide) (by simpa using hfunc)]
    simp [Nat.pos_iff_ne_zero.mp hpos]
  · intro hfunc
    obtain ⟨n, hn⟩ : ∃ n, cfg.maxRetries = n + 1 :=
      ⟨cfg.maxRetries - 1, (Nat.succ_pred_eq_of_pos hpos).symm⟩
    unfold retryWithBackoff
    rw [hn]
    simp [retryAux, hfunc]

/-- Witness for `executor_backoff_and_budget` at the default configuration
(`max_retries = 3`, `base_backoff = 2`): the claimed 2s/4s/8s and
10s/20s/40s schedules, a success on the second attempt, and the
single-attempt unexpected error. -/
theorem executor_backoff_and_budget_witness :
    retryWithBackoff {} (fun _ => .exc .clientError) (.ok true) =
      { result := .raised .clientError, calls := 3, sleeps := [2, 4, 8]
        reauthAttempts := 0, reauthSuccesses := 0, reauthFailures := 0 }
    ∧ retryWithBackoff {} (fun _ => .exc (.pleaseWait (some 429))) (.ok true) =
      { result := .raised (.pleaseWait (some 429)), calls := 3
        sleeps := [10, 20, 40]
        reauthAttempts := 0, reauthSuccesses := 0, reauthFailures := 0 }
    ∧ retryWithBackoff {}
        (fun i => if i == 1 then .ok 7 else .exc .clientError) (.ok true) =
      { result := .ok 7, calls := 2, sleeps := [2]
        reauthAttempts := 0, reauthSuccesses := 0, reauthFailures := 0 }
    ∧ retryWithBackoff {} (fun _ => .exc .unexpected) (.ok true) =
      { result := .raised .unexpected, calls := 1, sleeps := []
        reauthAttempts := 0, reauthSuccesses := 0, reauthFailures := 0 } := by
  refine ⟨?_, ?_, ?_, ?_⟩
  · rw [(executor_backoff_and_budget {} (fun _ => .exc .clientError) (.ok true)
      (by decide)).1 (fun i _ => rfl)]
    decide
  · rw [(executor_backoff_and_budget {} (fun _ => .exc (.pleaseWait (some 429)))
      (.ok true) (by decide)).2.2.1 (fun i _ => rfl)]
    decide
  · rw [(executor_backoff_and_budget {}
      (fun i => if i == 1 then .ok 7 else .exc .clientError) (.ok true)
      (by decide)).2.1 1 7 (by decide) (fun i hi => by interval_cases i <;> rfl)
      rfl]
    decide
  · exact (executor_backoff_and_budget {} (fun _ => .exc .unexpected)
      (.ok true) (by decide)).2.2.2 rfl

/-! ## Claim C6: session-expiry re-authentication -/

/-- The loop never attempts re-authentication more than once per call, and
never again after it has been attempted. -/
theorem retryAux_reauth_le (cfg : RetryCfg) (func : Nat → CallOutcome)
    (login : LoginOutcome) :
    ∀ (remaining callIdx : Nat) (authTried : Bool) (lastExc : Exc),
      (retryAux cfg func login remaining callIdx authTried
        lastExc).reauthAttempts ≤ (if authTried then 0 else 1) := by
  intro remaining
  induction remaining with
  | zero =>
    intro callIdx authTried lastExc
    simp [retryAux]
  | succ n ih =>
    intro callIdx authTried lastExc
    cases hf : func callIdx with
    | ok v => simp [retryAux, hf]
    | exc e =>
      cases e with
      | pleaseWait st =>
        simp only [retryAux, hf]
        by_cases hcond :
            (isAuthenticationError (.pleaseWait st) && !authTried) = true
        · rw [if_pos hcond]
          have hat : authTried = false := by
            rcases Bool.and_eq_true _ _ |>.mp hcond with ⟨_, h2⟩
            simpa using h2
          subst hat
          cases login with
          | ok b =>
            cases b
            · simp
            · have hr := ih (callIdx + 1) true lastExc
              simp at hr
              simp [hr]
          | exc e2 => simp
        · rw [if_neg hcond]
          simpa using ih (callIdx + 1) authTried (.pleaseWait st)
      | loginRequired =>
        simp only [retryAux, hf]
        cases authTried with
        | true => simp
        | false =>
          simp only [Bool.not_false, if_pos rfl]
          cases login with
          | ok b =>
            cases b
            · simp
            · have hr := ih (callIdx + 1) true lastExc
              simp at hr
              simp [hr]
          | exc e2 => simp
      | clientError =>
        simp only [retryAux, hf]
        simpa using ih (callIdx + 1) authTried .clientError
      | connectionError =>
        simp only [retryAux, hf]
        simpa using ih (callIdx + 1) authTried .connectionError
      | unexpected => simp [retryAux, hf]
      | noAttempts => simp [retryAux, hf]

/-- C6 (amended): re-authentication is attempted at most once per call; on
the first expiry signal with a failing (or raising) re-login the call raises
immediately after a single wrapped-call attempt — the failure counter is
incremented unless the re-login raised a `LoginRequired` itself, which the
nested handler re-raises without counting; on re-login success the
original operation is retried as the next attempt of the same budget —
consuming a retry slot; after the re-authentication attempt, a further
explicit login-required signal is raised immediately, while a further
401-shaped rate-limit exception is handled as ordinary rate limiting
(slept on and retried within the remaining budget). -/
theorem executor_reauth_amended (cfg : RetryCfg) (func : Nat → CallOutcome)
    (login : LoginOutcome) :
    (retryWithBackoff cfg func login).reauthAttempts ≤ 1
    ∧ (∀ e, func 0 = .exc e → isAuthenticationError e = true →
        0 < cfg.maxRetries → login = .ok false →
        retryWithBackoff cfg func login =
          { result := .raised .loginRequired, calls := 1, sleeps := []
            reauthAttempts := 1, reauthSuccesses := 0, reauthFailures := 1 })
    ∧ (∀ e e2, func 0 = .exc e → isAuthenticationError e = true →
        0 < cfg.maxRetries → login = .exc e2 →
        retryWithBackoff cfg func login =
          { result := .raised e2, calls := 1, sleeps := []
            reauthAttempts := 1, reauthSuccesses := 0
            reauthFailures := if e2 = .loginRequired then 0 else 1 })
    ∧ (∀ e, func 0 = .exc e → isAuthenticationError e = true →
        0 < cfg.maxRetries → login = .ok true →
        retryWithBackoff cfg func login =
          { retryAux cfg func login (cfg.maxRetries - 1) 1 true .noAttempts with
            calls := (retryAux cfg func login (cfg.maxRetries - 1) 1 true
              .noAttempts).calls + 1
            reauthAttempts := (retryAux cfg func login (cfg.maxRetries - 1) 1
              true .noAttempts).reauthAttempts + 1
            reauthSuccesses := (retryAux cfg func login (cfg.maxRetries - 1) 1
              true .noAttempts).reauthSuccesses + 1 })
    ∧ (∀ remaining callIdx lastExc, func callIdx = .exc .loginRequired →
        retryAux cfg func login (remaining + 1) callIdx true lastExc =
          { result := .raised .loginRequired, calls := 1, sleeps := []
            reauthAttempts := 0, reauthSuccesses := 0, reauthFailures := 0 })
    ∧ (∀ remaining callIdx lastExc st,
        func callIdx = .exc (.pleaseWait st) →
        retryAux cfg func login (remaining + 1) callIdx true lastExc =
          { retryAux cfg func login remaining (callIdx + 1) true
              (.pleaseWait st) with
            calls := (retryAux cfg func login remaining (callIdx + 1) true
              (.pleaseWait st)).calls + 1
            sleeps := (cfg.baseBackoff * 2 ^ (cfg.maxRetries - (remaining + 1))
              * 5) :: (retryAux cfg func login remaining (callIdx + 1) true
              (.pleaseWait st)).sleeps }) := by
  refine ⟨?_, ?_, ?_, ?_, ?_, ?_⟩
  · have := retryAux_reauth_le cfg func login cfg.maxRetries 0 false .noAttempts
    simpa [retryWithBackoff] using this
  · intro e hf hauth hpos hlogin
    obtain ⟨n, hn⟩ : ∃ n, cfg.maxRetries = n + 1 :=
      ⟨cfg.maxRetries - 1, (Nat.succ_pred_eq_of_pos hpos).symm⟩
    unfold retryWithBackoff
    rw [hn]
    cases e with
    | pleaseWait st => simp [retryAux, hf, hauth, hlogin]
    | loginRequired => simp [retryAux, hf, hlogin]
    | clientError => simp [isAuthenticationError] at hauth
    | connectionError => simp [isAuthenticationError] at hauth
    | unexpected => simp [isAuthenticationError] at hauth
    | noAttempts => simp [isAuthenticationError] at hauth
  · intro e e2 hf hauth hpos hlogin
    obtain ⟨n, hn⟩ : ∃ n, cfg.maxRetries = n + 1 :=
      ⟨cfg.maxRetries - 1, (Nat.succ_pred_eq_of_pos hpos).symm⟩
    unfold retryWithBackoff
    rw [hn]
    cases e with
    | pleaseWait st => simp [retryAux, hf, hauth, hlogin]
    | loginRequired => simp [retryAux, hf, hlogin]
    | clientError => simp [isAuthenticationError] at hauth
    | connectionError => simp [isAuthenticationError] at hauth
    | unexpected => simp [isAuthenticationError] at hauth
    | noAttempts => simp [isAuthenticationError] at hauth
  · intro e hf hauth hpos hlogin
    obtain ⟨n, hn⟩ : ∃ n, cfg.maxRetries = n + 1 :=
      ⟨cfg.maxRetries - 1, (Nat.succ_pred_eq_of_pos hpos).symm⟩
    unfold retryWithBackoff
    rw [hn]
    cases e with
    | pleaseWait st => simp [retryAux, hf, hauth, hlogin]
    | loginRequired => simp [retryAux, hf, hlogin]
    | clientError => simp [isAuthenticationError] at hauth
    | connectionError => simp [isAuthenticationError] at hauth
    | unexpected => simp [isAuthenticationError] at hauth
    | noAttempts => simp [isAuthenticationError] at hauth
  · intro remaining callIdx lastExc hf
    simp [retryAux, hf]
  · intro remaining callIdx lastExc st hf
    simp [retryAux, hf]

/-- C6 counterexample.  First part: a persistent 401-shaped
`PleaseWaitFewMinutes` with a succeeding re-login makes three wrapped calls
and sleeps twice (20s, 40s) before raising — the second expiry signal after
the reauth is slept on and retried as a rate limit, not raised immediately.
Second part: a 401 followed by persistent client errors yields three total
calls with sleeps 4s, 8s — the post-reauth retry ran as attempt 1 of the
same budget, so it consumed a retry slot (the claim would predict a full
fresh budget: four calls with sleeps 2s, 4s, 8s). -/
theorem executor_reauth_counterexample :
    retryWithBackoff {} (fun _ => .exc (.pleaseWait (some 401))) (.ok true) =
      { result := .raised (.pleaseWait (some 401)), calls := 3
        sleeps := [20, 40]
        reauthAttempts := 1, reauthSuccesses := 1, reauthFailures := 0 }
    ∧ retryWithBackoff {}
        (fun i => if i == 0 then .exc (.pleaseWait (some 401))
          else .exc .clientError) (.ok true) =
      { result := .raised .clientError, calls := 3, sleeps := [4, 8]
        reauthAttempts := 1, reauthSuccesses := 1, reauthFailures := 0 } := by
  exact ⟨by decide, by decide⟩

/-- Witness for `executor_reauth_amended` at the default configuration: the
counter bound on a concrete run; a `False` re-login raising immediately
after one call with a counted failure; a re-login raising `LoginRequired`
propagating it with no counted failure; a re-login raising an unexpected
exception propagating it with a counted failure; and, after a reauth
attempt, a further login-required signal raised immediately. -/
theorem executor_reauth_amended_witness :
    (retryWithBackoff {} (fun _ => .exc (.pleaseWait (some 401)))
        (.ok true)).reauthAttempts ≤ 1
    ∧ retryWithBackoff {} (fun _ => .exc .loginRequired) (.ok false) =
        { result := .raised .loginRequired, calls := 1, sleeps := []
          reauthAttempts := 1, reauthSuccesses := 0, reauthFailures := 1 }
    ∧ retryWithBackoff {} (fun _ => .exc (.pleaseWait (some 401)))
        (.exc .loginRequired) =
        { result := .raised .loginRequired, calls := 1, sleeps := []
          reauthAttempts := 1, reauthSuccesses := 0, reauthFailures := 0 }
    ∧ retryWithBackoff {} (fun _ => .exc (.pleaseWait (some 401)))
        (.exc .unexpected) =
        { result := .raised .unexpected, calls := 1, sleeps := []
          reauthAttempts := 1, reauthSuccesses := 0, reauthFailures := 1 }
    ∧ retryAux {} (fun _ => .exc .loginRequired) (.ok true) 2 1 true
        .noAttempts =
        { result := .raised .loginRequired, calls := 1, sleeps := []
          reauthAttempts := 0, reauthSuccesses := 0, reauthFailures := 0 } := by
  refine ⟨?_, ?_, ?_, ?_, ?_⟩
  · exact (executor_reauth_amended {} (fun _ => .exc (.pleaseWait (some 401)))
      (.ok true)).1
  · exact (executor_reauth_amended {} (fun _ => .exc .loginRequired)
      (.ok false)).2.1 .loginRequired rfl rfl (by decide) rfl
  · rw [(executor_reauth_amended {} (fun _ => .exc (.pleaseWait (some 401)))
      (.exc .loginRequired)).2.2.1 (.pleaseWait (some 401)) .loginRequired
      rfl rfl (by decide) rfl]
    decide
  · rw [(executor_reauth_amended {} (fun _ => .exc (.pleaseWait (some 401)))
      (.exc .unexpected)).2.2.1 (.pleaseWait (some 401)) .unexpected
      rfl rfl (by decide) rfl]
    decide
  · exact (executor_reauth_amended {} (fun _ => .exc .loginRequired)
      (.ok true)).2.2.2.2.1 1 1 .noAttempts rfl

end Ig2Rss
